import Mathlib

/-!
# Verification of the arrival-alarm geofencing application

This file embeds the state-relevant core of the application:

* `calculateDistance` — the haversine distance from `src/utils/geo.ts`,
  over exact reals (JavaScript `Math.atan2` is modelled by `atan2` below).
* The geofence engine from `src/App.tsx`: the application state
  (`userLocation`, `targetLocation`, `distance`, `targetRadius`,
  `isAlarmActive`, `hasTriggeredForCurrentTarget`), the geofencing
  `useEffect` (`geofenceCheck`), `triggerAlarm`, and the handlers
  `handleSetTarget`, `handleRadiusChange`, `handleClearTarget`,
  `handleDismissAlarm`.  React re-runs the effect after every change to one
  of its dependencies, so each externally observable transition is a
  handler update followed by one run of `geofenceCheck`; the `...Step`
  functions below are those composed transitions, and `run` folds a list
  of events.  The engine is stated generically over the position type `P`
  and the distance function `D` (in the source, `calculateDistance`),
  which is exactly the module boundary in `src/App.tsx`.
* The accuracy-tier fallback of the geolocation error callback inside
  `startWatchingLocation` (`attemptWatchOnError`).

Arrival events (calls of `triggerAlarm`) are counted in the second
component of each transition's result.
-/

namespace SleepyArrival

/-! ## Distance calculator (`src/utils/geo.ts`) -/

/-- A coordinate, `GeoLocation` from `src/types.ts`: latitude and longitude
in degrees. -/
@[ext]
structure GeoLocation where
  lat : ℝ
  lng : ℝ

/-- JavaScript's `Math.atan2 y x`: the angle of the point `(x, y)` in
`(-π, π]`, with `atan2 0 0 = 0`. -/
noncomputable def atan2 (y x : ℝ) : ℝ :=
  if 0 < x then Real.arctan (y / x)
  else if x < 0 then
    (if 0 ≤ y then Real.arctan (y / x) + Real.pi else Real.arctan (y / x) - Real.pi)
  else if 0 < y then Real.pi / 2
  else if y < 0 then -(Real.pi / 2)
  else 0

/-- `calculateDistance` from `src/utils/geo.ts`: haversine distance in
meters between two coordinates, with Earth radius `6371e3`. -/
noncomputable def calculateDistance (point1 point2 : GeoLocation) : ℝ :=
  let R : ℝ := 6371000
  let phi1 := point1.lat * Real.pi / 180
  let phi2 := point2.lat * Real.pi / 180
  let dphi := (point2.lat - point1.lat) * Real.pi / 180
  let dlam := (point2.lng - point1.lng) * Real.pi / 180
  let a := Real.sin (dphi / 2) * Real.sin (dphi / 2) +
    Real.cos phi1 * Real.cos phi2 * Real.sin (dlam / 2) * Real.sin (dlam / 2)
  let c := 2 * atan2 (Real.sqrt a) (Real.sqrt (1 - a))
  R * c

/-- The haversine square term of `calculateDistance point1 point2` (the
`a` of the source), extracted for the proofs. -/
noncomputable def havA (point1 point2 : GeoLocation) : ℝ :=
  Real.sin ((point2.lat - point1.lat) * Real.pi / 180 / 2) *
      Real.sin ((point2.lat - point1.lat) * Real.pi / 180 / 2) +
    Real.cos (point1.lat * Real.pi / 180) * Real.cos (point2.lat * Real.pi / 180) *
      Real.sin ((point2.lng - point1.lng) * Real.pi / 180 / 2) *
      Real.sin ((point2.lng - point1.lng) * Real.pi / 180 / 2)

/-- Modelled from the spec: "the haversine great-circle formula with Earth
radius 6,371,000 m" (spec §4.1), written independently of the source, to
compare the source's `calculateDistance` against. -/
noncomputable def haversineSpecDistance (a b : GeoLocation) : ℝ :=
  let earthRadius : ℝ := 6371000
  let phiA := a.lat * Real.pi / 180
  let phiB := b.lat * Real.pi / 180
  let h := Real.sin ((phiB - phiA) / 2) ^ 2 +
    Real.cos phiA * Real.cos phiB * Real.sin ((b.lng - a.lng) * Real.pi / 180 / 2) ^ 2
  earthRadius * (2 * atan2 (Real.sqrt h) (Real.sqrt (1 - h)))

/-! ## Geofence engine (`src/App.tsx`) -/

/-- `TargetLocation` from `src/types.ts`: a coordinate (generalized to an
arbitrary position type `P`) with a radius in meters and the timestamp
set by `handleSetTarget`. -/
structure TargetLocation (P : Type) (α : Type) where
  loc : P
  radius : α
  timestamp : ℕ
deriving DecidableEq

/-- The geofencing-relevant state of the `App` component in
`src/App.tsx`. -/
structure AppState (P : Type) (α : Type) where
  userLocation : Option P
  targetLocation : Option (TargetLocation P α)
  distance : Option α
  targetRadius : α
  isAlarmActive : Bool
  hasTriggeredForCurrentTarget : Bool
deriving DecidableEq

variable {P : Type} {α : Type} [LinearOrderedSemiring α]

/-- `triggerAlarm` from `src/App.tsx`: sets `isAlarmActive` and
`hasTriggeredForCurrentTarget`. -/
def triggerAlarm (s : AppState P α) : AppState P α :=
  { s with isAlarmActive := true, hasTriggeredForCurrentTarget := true }

/-- The geofencing `useEffect` of `src/App.tsx` (its dependencies are
`userLocation`, `targetLocation`, `hasTriggeredForCurrentTarget`,
`isAlarmActive`): recomputes the distance, fires `triggerAlarm` when
inside the radius with the alarm inactive and the target not yet
triggered, and re-arms when beyond `radius + 50`.  The second component
counts the arrival events emitted. -/
def geofenceCheck (D : P → P → α) (s : AppState P α) : AppState P α × Nat :=
  match s.userLocation, s.targetLocation with
  | some u, some t =>
    let dist := D u t.loc
    let s1 := { s with distance := some dist }
    if dist ≤ t.radius then
      if !s1.isAlarmActive && !s1.hasTriggeredForCurrentTarget then
        (triggerAlarm s1, 1)
      else
        (s1, 0)
    else
      if dist > t.radius + 50 then
        ({ s1 with hasTriggeredForCurrentTarget := false }, 0)
      else
        (s1, 0)
  | _, _ => ({ s with distance := none }, 0)

/-- `handleSetTarget` from `src/App.tsx` (the state updates of the
handler itself): installs a new target with the current slider radius,
clears `hasTriggeredForCurrentTarget` and `isAlarmActive`. -/
def handleSetTarget (s : AppState P α) (location : P) (now : ℕ) : AppState P α :=
  { s with
    targetLocation := some ⟨location, s.targetRadius, now⟩,
    hasTriggeredForCurrentTarget := false,
    isAlarmActive := false }

/-- `handleRadiusChange` from `src/App.tsx`: updates the slider radius
and, when a target is active, its radius in place. -/
def handleRadiusChange (s : AppState P α) (newRadius : α) : AppState P α :=
  let s1 := { s with targetRadius := newRadius }
  match s1.targetLocation with
  | some t => { s1 with targetLocation := some { t with radius := newRadius } }
  | none => s1

/-- `handleClearTarget` from `src/App.tsx`. -/
def handleClearTarget (s : AppState P α) : AppState P α :=
  { s with targetLocation := none, isAlarmActive := false, hasTriggeredForCurrentTarget := false }

/-- `handleDismissAlarm` from `src/App.tsx`: sets `isAlarmActive` to
`false`. -/
def handleDismissAlarm (s : AppState P α) : AppState P α :=
  { s with isAlarmActive := false }

/-- A position fix as observed by the app: the `watchPosition` success
callback stores the fix in `userLocation`, and the geofencing effect
re-runs. -/
def onPositionUpdate (D : P → P → α) (s : AppState P α) (pos : P) : AppState P α × Nat :=
  geofenceCheck D { s with userLocation := some pos }

/-- Setting a target (map tap or search select) as observed: the handler
updates, then the geofencing effect re-runs. -/
def setTargetStep (D : P → P → α) (s : AppState P α) (location : P) (now : ℕ) :
    AppState P α × Nat :=
  geofenceCheck D (handleSetTarget s location now)

/-- Changing the radius as observed: the handler updates, then the
geofencing effect re-runs (its `targetLocation` dependency changed). -/
def radiusChangeStep (D : P → P → α) (s : AppState P α) (newRadius : α) :
    AppState P α × Nat :=
  geofenceCheck D (handleRadiusChange s newRadius)

/-- Clearing the target as observed: the handler updates, then the
geofencing effect re-runs. -/
def clearTargetStep (D : P → P → α) (s : AppState P α) : AppState P α × Nat :=
  geofenceCheck D (handleClearTarget s)

/-- Dismissing the alarm as observed: the handler updates, then the
geofencing effect re-runs (its `isAlarmActive` dependency changed). -/
def dismissStep (D : P → P → α) (s : AppState P α) : AppState P α × Nat :=
  geofenceCheck D (handleDismissAlarm s)

/-- Process a list of position fixes, summing the emitted arrival
events. -/
def runFixes (D : P → P → α) : AppState P α → List P → AppState P α × Nat
  | s, [] => (s, 0)
  | s, p :: ps =>
    let r := onPositionUpdate D s p
    let r2 := runFixes D r.1 ps
    (r2.1, r.2 + r2.2)

/-- The external events of the app. -/
inductive AppEvent (P : Type) (α : Type) where
  | positionUpdate (pos : P)
  | setTarget (location : P) (now : ℕ)
  | radiusChange (newRadius : α)
  | clearTarget
  | dismissAlarm

/-- One observable transition for an event. -/
def dispatch (D : P → P → α) (s : AppState P α) : AppEvent P α → AppState P α × Nat
  | .positionUpdate pos => onPositionUpdate D s pos
  | .setTarget l now => setTargetStep D s l now
  | .radiusChange r => radiusChangeStep D s r
  | .clearTarget => clearTargetStep D s
  | .dismissAlarm => dismissStep D s

/-- Process a list of events, summing the emitted arrival events. -/
def run (D : P → P → α) : AppState P α → List (AppEvent P α) → AppState P α × Nat
  | s, [] => (s, 0)
  | s, e :: es =>
    let r := dispatch D s e
    let r2 := run D r.1 es
    (r2.1, r.2 + r2.2)

/-! ## Location source fallback (`startWatchingLocation` in `src/App.tsx`) -/

/-- What the error callback of `attemptWatch` does: either restart the
watch in low-accuracy mode (`attemptWatch(false)`, surfacing nothing), or
surface a human-readable error message via `setPermissionError`. -/
inductive GeoErrorAction where
  | retryLowAccuracy
  | surfaceError (msg : String)
deriving DecidableEq

/-- The error callback of `attemptWatch` in `src/App.tsx`
(`startWatchingLocation`).  Geolocation error codes:
1 = PermissionDenied, 2 = PositionUnavailable, 3 = Timeout. -/
def attemptWatchOnError (isHighAccuracy : Bool) (code : ℕ) (message : String) :
    GeoErrorAction :=
  if isHighAccuracy && (code == 3 || code == 2) then
    .retryLowAccuracy
  else
    .surfaceError
      (match code with
        | 1 => "Location access denied. Please enable location permissions."
        | 2 => "Location unavailable. Please check your GPS signal."
        | 3 => "Location request timed out. Please try again."
        | _ => "Location error: " ++ message)

/-! ## Concrete instances used by witnesses and counterexamples

Positions on a line with the signed difference as distance function; the
target sits at `0`, so a fix at coordinate `d ≥ 0` has distance `d` to
the target. -/

/-- Signed-line distance: fixes are placed on a line with the target at
the origin. -/
def distOnLine (u v : ℤ) : ℤ := u - v

/-- A freshly set target of radius 100 at the origin, no fix yet. -/
def freshState : AppState ℤ ℤ :=
  { userLocation := none
    targetLocation := some ⟨0, 100, 0⟩
    distance := none
    targetRadius := 100
    isAlarmActive := false
    hasTriggeredForCurrentTarget := false }

/-- Dwelling inside the radius after triggering: the alarm fired at a fix
with distance 90 ≤ 100 and has not been dismissed. -/
def dwellState : AppState ℤ ℤ :=
  { userLocation := some 90
    targetLocation := some ⟨0, 100, 0⟩
    distance := some 90
    targetRadius := 100
    isAlarmActive := true
    hasTriggeredForCurrentTarget := true }

/-- Re-entered the radius after a hysteresis re-arm with the alarm never
dismissed: the alarm fired, the user left beyond 150 m (re-arming), and
came back to distance 90 without dismissing. -/
def reenteredState : AppState ℤ ℤ :=
  { userLocation := some 90
    targetLocation := some ⟨0, 100, 0⟩
    distance := some 90
    targetRadius := 100
    isAlarmActive := true
    hasTriggeredForCurrentTarget := false }

/-- Triggered on a wide 300 m target, currently at distance 200. -/
def triggeredFarState : AppState ℤ ℤ :=
  { userLocation := some 200
    targetLocation := some ⟨0, 300, 0⟩
    distance := some 200
    targetRadius := 300
    isAlarmActive := true
    hasTriggeredForCurrentTarget := true }

/-- Armed on a 50 m target at distance 90, with the alarm still active
from the previous arming cycle (triggered, left beyond 100 m which
re-armed, came back to 90 without dismissing). -/
def armedAlarmOnState : AppState ℤ ℤ :=
  { userLocation := some 90
    targetLocation := some ⟨0, 50, 0⟩
    distance := some 90
    targetRadius := 50
    isAlarmActive := true
    hasTriggeredForCurrentTarget := false }

/-- Armed on a 50 m target at distance 90 with the alarm inactive. -/
def armedReadyState : AppState ℤ ℤ :=
  { userLocation := some 90
    targetLocation := some ⟨0, 50, 0⟩
    distance := some 90
    targetRadius := 50
    isAlarmActive := false
    hasTriggeredForCurrentTarget := false }

/-! ## Branch characterizations of the geofencing effect -/

lemma geofenceCheck_none (D : P → P → α) (s : AppState P α)
    (h : s.userLocation = none ∨ s.targetLocation = none) :
    geofenceCheck D s = ({ s with distance := none }, 0) := by
  unfold geofenceCheck
  rcases h with h | h
  · rw [h]
  · rw [h]
    rcases hu : s.userLocation with _ | u <;> rfl

lemma geofenceCheck_trigger (D : P → P → α) (s : AppState P α) (u : P)
    (t : TargetLocation P α)
    (hu : s.userLocation = some u) (ht : s.targetLocation = some t)
    (ha : s.isAlarmActive = false) (hg : s.hasTriggeredForCurrentTarget = false)
    (hd : D u t.loc ≤ t.radius) :
    geofenceCheck D s =
      ({ s with
          distance := some (D u t.loc)
          isAlarmActive := true
          hasTriggeredForCurrentTarget := true }, 1) := by
  unfold geofenceCheck triggerAlarm
  rw [hu, ht]
  simp only [ha, hg]
  rw [if_pos hd]
  simp

lemma geofenceCheck_inside_blocked (D : P → P → α) (s : AppState P α) (u : P)
    (t : TargetLocation P α)
    (hu : s.userLocation = some u) (ht : s.targetLocation = some t)
    (hb : s.isAlarmActive = true ∨ s.hasTriggeredForCurrentTarget = true)
    (hd : D u t.loc ≤ t.radius) :
    geofenceCheck D s = ({ s with distance := some (D u t.loc) }, 0) := by
  unfold geofenceCheck
  rw [hu, ht]
  simp only
  rw [if_pos hd]
  rcases hb with hb | hb <;> simp [hb]

lemma geofenceCheck_rearm (D : P → P → α) (s : AppState P α) (u : P)
    (t : TargetLocation P α)
    (hu : s.userLocation = some u) (ht : s.targetLocation = some t)
    (hd : D u t.loc > t.radius + 50) :
    geofenceCheck D s =
      ({ s with
          distance := some (D u t.loc)
          hasTriggeredForCurrentTarget := false }, 0) := by
  have hd' : ¬ D u t.loc ≤ t.radius := by
    have h50 : (0 : α) ≤ 50 := by norm_num
    push_neg
    calc t.radius ≤ t.radius + 50 := le_add_of_nonneg_right h50
    _ < D u t.loc := hd
  unfold geofenceCheck
  rw [hu, ht]
  simp only
  rw [if_neg hd', if_pos hd]

lemma geofenceCheck_deadzone (D : P → P → α) (s : AppState P α) (u : P)
    (t : TargetLocation P α)
    (hu : s.userLocation = some u) (ht : s.targetLocation = some t)
    (hd1 : ¬ D u t.loc ≤ t.radius) (hd2 : ¬ D u t.loc > t.radius + 50) :
    geofenceCheck D s = ({ s with distance := some (D u t.loc) }, 0) := by
  unfold geofenceCheck
  rw [hu, ht]
  simp only
  rw [if_neg hd1, if_neg hd2]

lemma eq_false_of_not_eq_true {b : Bool} (h : ¬ b = true) : b = false := by
  cases b
  · rfl
  · exact absurd rfl h

lemma geofenceCheck_frame (D : P → P → α) (s : AppState P α) :
    (geofenceCheck D s).1.userLocation = s.userLocation ∧
    (geofenceCheck D s).1.targetLocation = s.targetLocation ∧
    (geofenceCheck D s).1.targetRadius = s.targetRadius := by
  rcases hu : s.userLocation with _ | u
  · rw [geofenceCheck_none D s (Or.inl hu)]
    exact ⟨hu, rfl, rfl⟩
  rcases ht : s.targetLocation with _ | t
  · rw [geofenceCheck_none D s (Or.inr ht)]
    exact ⟨hu, ht, rfl⟩
  by_cases h1 : D u t.loc ≤ t.radius
  · by_cases ha : s.isAlarmActive = true
    · rw [geofenceCheck_inside_blocked D s u t hu ht (Or.inl ha) h1]
      exact ⟨hu, ht, rfl⟩
    by_cases hg : s.hasTriggeredForCurrentTarget = true
    · rw [geofenceCheck_inside_blocked D s u t hu ht (Or.inr hg) h1]
      exact ⟨hu, ht, rfl⟩
    · rw [geofenceCheck_trigger D s u t hu ht
        (eq_false_of_not_eq_true ha) (eq_false_of_not_eq_true hg) h1]
      exact ⟨hu, ht, rfl⟩
  by_cases h2 : D u t.loc > t.radius + 50
  · rw [geofenceCheck_rearm D s u t hu ht h2]
    exact ⟨hu, ht, rfl⟩
  · rw [geofenceCheck_deadzone D s u t hu ht h1 h2]
    exact ⟨hu, ht, rfl⟩

lemma geofenceCheck_alarm_on (D : P → P → α) (s : AppState P α)
    (ha : s.isAlarmActive = true) :
    (geofenceCheck D s).2 = 0 ∧ (geofenceCheck D s).1.isAlarmActive = true := by
  rcases hu : s.userLocation with _ | u
  · rw [geofenceCheck_none D s (Or.inl hu)]
    exact ⟨rfl, ha⟩
  rcases ht : s.targetLocation with _ | t
  · rw [geofenceCheck_none D s (Or.inr ht)]
    exact ⟨rfl, ha⟩
  by_cases h1 : D u t.loc ≤ t.radius
  · rw [geofenceCheck_inside_blocked D s u t hu ht (Or.inl ha) h1]
    exact ⟨rfl, ha⟩
  by_cases h2 : D u t.loc > t.radius + 50
  · rw [geofenceCheck_rearm D s u t hu ht h2]
    exact ⟨rfl, ha⟩
  · rw [geofenceCheck_deadzone D s u t hu ht h1 h2]
    exact ⟨rfl, ha⟩

/-! ## Per-fix characterizations -/

lemma onPositionUpdate_trigger (D : P → P → α) (s : AppState P α)
    (t : TargetLocation P α) (p : P)
    (ht : s.targetLocation = some t)
    (ha : s.isAlarmActive = false) (hg : s.hasTriggeredForCurrentTarget = false)
    (hd : D p t.loc ≤ t.radius) :
    (onPositionUpdate D s p).2 = 1 ∧
    (onPositionUpdate D s p).1.targetLocation = some t ∧
    (onPositionUpdate D s p).1.isAlarmActive = true ∧
    (onPositionUpdate D s p).1.hasTriggeredForCurrentTarget = true := by
  unfold onPositionUpdate
  rw [geofenceCheck_trigger D ({ s with userLocation := some p }) p t rfl
    (show ({ s with userLocation := some p } : AppState P α).targetLocation = some t from ht)
    (show ({ s with userLocation := some p } : AppState P α).isAlarmActive = false from ha)
    (show ({ s with userLocation := some p } : AppState P α).hasTriggeredForCurrentTarget = false
      from hg)
    hd]
  exact ⟨rfl, ht, rfl, rfl⟩

lemma onPositionUpdate_inside_blocked (D : P → P → α) (s : AppState P α)
    (t : TargetLocation P α) (p : P)
    (ht : s.targetLocation = some t)
    (hb : s.isAlarmActive = true ∨ s.hasTriggeredForCurrentTarget = true)
    (hd : D p t.loc ≤ t.radius) :
    (onPositionUpdate D s p).2 = 0 ∧
    (onPositionUpdate D s p).1.targetLocation = some t ∧
    (onPositionUpdate D s p).1.isAlarmActive = s.isAlarmActive ∧
    (onPositionUpdate D s p).1.hasTriggeredForCurrentTarget =
      s.hasTriggeredForCurrentTarget := by
  unfold onPositionUpdate
  rw [geofenceCheck_inside_blocked D ({ s with userLocation := some p }) p t rfl
    (show ({ s with userLocation := some p } : AppState P α).targetLocation = some t from ht)
    hb hd]
  exact ⟨rfl, ht, rfl, rfl⟩

lemma onPositionUpdate_rearm (D : P → P → α) (s : AppState P α)
    (t : TargetLocation P α) (p : P)
    (ht : s.targetLocation = some t)
    (hd : D p t.loc > t.radius + 50) :
    (onPositionUpdate D s p).2 = 0 ∧
    (onPositionUpdate D s p).1.targetLocation = some t ∧
    (onPositionUpdate D s p).1.isAlarmActive = s.isAlarmActive ∧
    (onPositionUpdate D s p).1.hasTriggeredForCurrentTarget = false := by
  unfold onPositionUpdate
  rw [geofenceCheck_rearm D ({ s with userLocation := some p }) p t rfl
    (show ({ s with userLocation := some p } : AppState P α).targetLocation = some t from ht)
    hd]
  exact ⟨rfl, ht, rfl, rfl⟩

lemma onPositionUpdate_deadzone (D : P → P → α) (s : AppState P α)
    (t : TargetLocation P α) (p : P)
    (ht : s.targetLocation = some t)
    (hd1 : ¬ D p t.loc ≤ t.radius) (hd2 : ¬ D p t.loc > t.radius + 50) :
    (onPositionUpdate D s p).2 = 0 ∧
    (onPositionUpdate D s p).1.targetLocation = some t ∧
    (onPositionUpdate D s p).1.isAlarmActive = s.isAlarmActive ∧
    (onPositionUpdate D s p).1.hasTriggeredForCurrentTarget =
      s.hasTriggeredForCurrentTarget := by
  unfold onPositionUpdate
  rw [geofenceCheck_deadzone D ({ s with userLocation := some p }) p t rfl
    (show ({ s with userLocation := some p } : AppState P α).targetLocation = some t from ht)
    hd1 hd2]
  exact ⟨rfl, ht, rfl, rfl⟩

lemma onPositionUpdate_far (D : P → P → α) (s : AppState P α)
    (t : TargetLocation P α) (p : P)
    (ht : s.targetLocation = some t) (hd : ¬ D p t.loc ≤ t.radius) :
    (onPositionUpdate D s p).2 = 0 ∧
    (onPositionUpdate D s p).1.targetLocation = some t ∧
    (onPositionUpdate D s p).1.isAlarmActive = s.isAlarmActive ∧
    ((onPositionUpdate D s p).1.hasTriggeredForCurrentTarget =
        s.hasTriggeredForCurrentTarget ∨
      (onPositionUpdate D s p).1.hasTriggeredForCurrentTarget = false) := by
  by_cases h2 : D p t.loc > t.radius + 50
  · obtain ⟨he, h1, h3, h4⟩ := onPositionUpdate_rearm D s t p ht h2
    exact ⟨he, h1, h3, Or.inr h4⟩
  · obtain ⟨he, h1, h3, h4⟩ := onPositionUpdate_deadzone D s t p ht hd h2
    exact ⟨he, h1, h3, Or.inl h4⟩

/-! ## Handler frame facts -/

omit [LinearOrderedSemiring α] in
lemma handleRadiusChange_none (s : AppState P α) (r : α)
    (h : s.targetLocation = none) :
    handleRadiusChange s r = { s with targetRadius := r } := by
  unfold handleRadiusChange
  rw [show ({ s with targetRadius := r } : AppState P α).targetLocation =
    s.targetLocation from rfl, h]

omit [LinearOrderedSemiring α] in
lemma handleRadiusChange_some (s : AppState P α) (r : α) (t : TargetLocation P α)
    (h : s.targetLocation = some t) :
    handleRadiusChange s r =
      { s with
          targetRadius := r
          targetLocation := some { t with radius := r } } := by
  unfold handleRadiusChange
  rw [show ({ s with targetRadius := r } : AppState P α).targetLocation =
    s.targetLocation from rfl, h]

/-! ## Runs of fixes -/

lemma runFixes_cons (D : P → P → α) (s : AppState P α) (p : P) (ps : List P) :
    runFixes D s (p :: ps) =
      ((runFixes D (onPositionUpdate D s p).1 ps).1,
        (onPositionUpdate D s p).2 + (runFixes D (onPositionUpdate D s p).1 ps).2) :=
  rfl

lemma runFixes_append (D : P → P → α) (xs ys : List P) :
    ∀ s : AppState P α,
      runFixes D s (xs ++ ys) =
        ((runFixes D (runFixes D s xs).1 ys).1,
          (runFixes D s xs).2 + (runFixes D (runFixes D s xs).1 ys).2) := by
  induction xs with
  | nil => intro s; simp [runFixes]
  | cons x xs ih =>
    intro s
    simp only [List.cons_append]
    rw [runFixes_cons, runFixes_cons, ih]
    dsimp only
    rw [Nat.add_assoc]

lemma runFixes_far (D : P → P → α) (t : TargetLocation P α) (qs : List P) :
    ∀ s : AppState P α, s.targetLocation = some t → s.isAlarmActive = false →
      s.hasTriggeredForCurrentTarget = false →
      (∀ x ∈ qs, ¬ D x t.loc ≤ t.radius) →
      (runFixes D s qs).2 = 0 ∧
      (runFixes D s qs).1.targetLocation = some t ∧
      (runFixes D s qs).1.isAlarmActive = false ∧
      (runFixes D s qs).1.hasTriggeredForCurrentTarget = false := by
  induction qs with
  | nil => exact fun s ht ha hg _ => ⟨rfl, ht, ha, hg⟩
  | cons p ps ih =>
    intro s ht ha hg hqs
    obtain ⟨he, ht', ha', hg'⟩ :=
      onPositionUpdate_far D s t p ht (hqs p (List.mem_cons_self p ps))
    have ha'' : (onPositionUpdate D s p).1.isAlarmActive = false := by
      rw [ha', ha]
    have hg'' : (onPositionUpdate D s p).1.hasTriggeredForCurrentTarget = false := by
      rcases hg' with h | h
      · rw [h, hg]
      · exact h
    obtain ⟨ke, kt, ka, kg⟩ := ih (onPositionUpdate D s p).1 ht' ha'' hg''
      (fun x hx => hqs x (List.mem_cons_of_mem _ hx))
    rw [runFixes_cons]
    exact ⟨by rw [he, ke], kt, ka, kg⟩

lemma runFixes_inside_alarm (D : P → P → α) (t : TargetLocation P α) (rs : List P) :
    ∀ s : AppState P α, s.targetLocation = some t → s.isAlarmActive = true →
      (∀ x ∈ rs, D x t.loc ≤ t.radius) →
      (runFixes D s rs).2 = 0 := by
  induction rs with
  | nil => exact fun _ _ _ _ => rfl
  | cons p ps ih =>
    intro s ht ha hrs
    obtain ⟨he, ht', ha', _⟩ :=
      onPositionUpdate_inside_blocked D s t p ht (Or.inl ha)
        (hrs p (List.mem_cons_self p ps))
    have ha'' : (onPositionUpdate D s p).1.isAlarmActive = true := by
      rw [ha', ha]
    have ke := ih (onPositionUpdate D s p).1 ht' ha''
      (fun x hx => hrs x (List.mem_cons_of_mem _ hx))
    rw [runFixes_cons]
    rw [he, ke]

/-! ## Distance lemmas -/

lemma calculateDistance_eq (p1 p2 : GeoLocation) :
    calculateDistance p1 p2 =
      6371000 * (2 * atan2 (Real.sqrt (havA p1 p2)) (Real.sqrt (1 - havA p1 p2))) :=
  rfl

lemma atan2_zero_one : atan2 0 1 = 0 := by
  unfold atan2
  rw [if_pos one_pos]
  norm_num

lemma havA_self (p : GeoLocation) : havA p p = 0 := by
  simp [havA]

lemma havA_comm (p1 p2 : GeoLocation) : havA p1 p2 = havA p2 p1 := by
  unfold havA
  rw [show (p1.lat - p2.lat) * Real.pi / 180 / 2 =
      -((p2.lat - p1.lat) * Real.pi / 180 / 2) from by ring,
    show (p1.lng - p2.lng) * Real.pi / 180 / 2 =
      -((p2.lng - p1.lng) * Real.pi / 180 / 2) from by ring,
    Real.sin_neg, Real.sin_neg]
  ring

lemma calculateDistance_spec_eq (a b : GeoLocation) :
    calculateDistance a b = haversineSpecDistance a b := by
  rw [calculateDistance_eq]
  unfold haversineSpecDistance
  dsimp only
  have harg : (b.lat * Real.pi / 180 - a.lat * Real.pi / 180) / 2 =
      (b.lat - a.lat) * Real.pi / 180 / 2 := by ring
  rw [harg]
  have hh : Real.sin ((b.lat - a.lat) * Real.pi / 180 / 2) ^ 2 +
      Real.cos (a.lat * Real.pi / 180) * Real.cos (b.lat * Real.pi / 180) *
        Real.sin ((b.lng - a.lng) * Real.pi / 180 / 2) ^ 2 = havA a b := by
    rw [pow_two, pow_two]
    unfold havA
    ring
  rw [hh]

lemma atan2_eq_zero_of {y x : ℝ} (hy : 0 ≤ y) (hx : 0 ≤ x)
    (h : atan2 y x = 0) : y = 0 := by
  by_cases h1 : 0 < x
  · rw [atan2, if_pos h1] at h
    have := Real.arctan_eq_zero_iff.mp h
    rcases div_eq_zero_iff.mp this with h2 | h2
    · exact h2
    · exact absurd h2 (ne_of_gt h1)
  · have hx0 : x = 0 := le_antisymm (not_lt.mp h1) hx
    subst hx0
    rcases eq_or_lt_of_le hy with h2 | h2
    · exact h2.symm
    · rw [atan2, if_neg h1, if_neg (lt_irrefl 0), if_pos h2] at h
      exact absurd h (by positivity)

lemma deg_cos_pos (x : ℝ) (hx : |x| < 90) : 0 < Real.cos (x * Real.pi / 180) := by
  obtain ⟨h1, h2⟩ := abs_lt.mp hx
  apply Real.cos_pos_of_mem_Ioo
  constructor
  · have := Real.pi_pos
    nlinarith
  · have := Real.pi_pos
    nlinarith

lemma sin_half_deg_eq_zero {x : ℝ} (hx : |x| < 360)
    (h : Real.sin (x * Real.pi / 180 / 2) = 0) : x = 0 := by
  obtain ⟨h1, h2⟩ := abs_lt.mp hx
  have hpi := Real.pi_pos
  have hb1 : -Real.pi < x * Real.pi / 180 / 2 := by nlinarith
  have hb2 : x * Real.pi / 180 / 2 < Real.pi := by nlinarith
  have h0 : x * Real.pi / 180 / 2 = 0 :=
    (Real.sin_eq_zero_iff_of_lt_of_lt hb1 hb2).mp h
  have h3 : x * Real.pi = 0 := by linarith
  rcases mul_eq_zero.mp h3 with h4 | h4
  · exact h4
  · exact absurd h4 Real.pi_ne_zero

lemma calculateDistance_zero_imp_eq (a b : GeoLocation)
    (hlata : |a.lat| < 90) (hlatb : |b.lat| < 90) (hlng : |a.lng - b.lng| < 360)
    (h : calculateDistance a b = 0) : a = b := by
  rw [calculateDistance_eq] at h
  have hat : atan2 (Real.sqrt (havA a b)) (Real.sqrt (1 - havA a b)) = 0 := by
    rcases mul_eq_zero.mp h with h1 | h1
    · norm_num at h1
    rcases mul_eq_zero.mp h1 with h2 | h2
    · norm_num at h2
    exact h2
  have hsq : Real.sqrt (havA a b) = 0 :=
    atan2_eq_zero_of (Real.sqrt_nonneg _) (Real.sqrt_nonneg _) hat
  have hA : havA a b ≤ 0 := Real.sqrt_eq_zero'.mp hsq
  set s1 := Real.sin ((b.lat - a.lat) * Real.pi / 180 / 2) with hs1
  set s2 := Real.sin ((b.lng - a.lng) * Real.pi / 180 / 2) with hs2
  have hc1 : 0 < Real.cos (a.lat * Real.pi / 180) := deg_cos_pos a.lat hlata
  have hc2 : 0 < Real.cos (b.lat * Real.pi / 180) := deg_cos_pos b.lat hlatb
  have hA' : s1 * s1 +
      Real.cos (a.lat * Real.pi / 180) * Real.cos (b.lat * Real.pi / 180) * s2 * s2 ≤ 0 := hA
  have hterm2 : 0 ≤ Real.cos (a.lat * Real.pi / 180) * Real.cos (b.lat * Real.pi / 180) *
      s2 * s2 := by
    have : Real.cos (a.lat * Real.pi / 180) * Real.cos (b.lat * Real.pi / 180) *
        s2 * s2 = (Real.cos (a.lat * Real.pi / 180) * Real.cos (b.lat * Real.pi / 180)) *
          (s2 * s2) := by ring
    rw [this]
    exact mul_nonneg (mul_pos hc1 hc2).le (mul_self_nonneg s2)
  have hs1z : s1 = 0 := by
    have h1 : s1 * s1 ≤ 0 := by linarith
    exact mul_self_eq_zero.mp (le_antisymm h1 (mul_self_nonneg s1))
  have hs2z : s2 = 0 := by
    have h1 : Real.cos (a.lat * Real.pi / 180) * Real.cos (b.lat * Real.pi / 180) *
        s2 * s2 ≤ 0 := by nlinarith [mul_self_nonneg s1]
    have h2 : (Real.cos (a.lat * Real.pi / 180) * Real.cos (b.lat * Real.pi / 180)) *
        (s2 * s2) = 0 := by
      have h3 : Real.cos (a.lat * Real.pi / 180) * Real.cos (b.lat * Real.pi / 180) *
          s2 * s2 = 0 := le_antisymm h1 hterm2
      calc (Real.cos (a.lat * Real.pi / 180) * Real.cos (b.lat * Real.pi / 180)) *
          (s2 * s2) = Real.cos (a.lat * Real.pi / 180) * Real.cos (b.lat * Real.pi / 180) *
            s2 * s2 := by ring
      _ = 0 := h3
    rcases mul_eq_zero.mp h2 with h4 | h4
    · exact absurd h4 (ne_of_gt (mul_pos hc1 hc2))
    · exact mul_self_eq_zero.mp h4
  have hlat : b.lat - a.lat = 0 := by
    have hb : |b.lat - a.lat| < 360 := by
      obtain ⟨u1, u2⟩ := abs_lt.mp hlata
      obtain ⟨v1, v2⟩ := abs_lt.mp hlatb
      rw [abs_lt]
      constructor <;> linarith
    exact sin_half_deg_eq_zero hb hs1z
  have hlng' : b.lng - a.lng = 0 := by
    have hb : |b.lng - a.lng| < 360 := by rwa [abs_sub_comm] at hlng
    exact sin_half_deg_eq_zero hb hs2z
  ext
  · linarith
  · linarith

lemma geofenceCheck_keeps_untriggered (D : P → P → α) (s : AppState P α)
    (hg : s.hasTriggeredForCurrentTarget = false) :
    (geofenceCheck D s).1.hasTriggeredForCurrentTarget = false ∨
    (geofenceCheck D s).2 = 1 := by
  rcases hu : s.userLocation with _ | u
  · rw [geofenceCheck_none D s (Or.inl hu)]
    exact Or.inl hg
  rcases ht : s.targetLocation with _ | t
  · rw [geofenceCheck_none D s (Or.inr ht)]
    exact Or.inl hg
  by_cases h1 : D u t.loc ≤ t.radius
  · by_cases ha : s.isAlarmActive = true
    · rw [geofenceCheck_inside_blocked D s u t hu ht (Or.inl ha) h1]
      exact Or.inl hg
    · rw [geofenceCheck_trigger D s u t hu ht (eq_false_of_not_eq_true ha) hg h1]
      exact Or.inr rfl
  by_cases h2 : D u t.loc > t.radius + 50
  · rw [geofenceCheck_rearm D s u t hu ht h2]
    exact Or.inl rfl
  · rw [geofenceCheck_deadzone D s u t hu ht h1 h2]
    exact Or.inl hg

omit [LinearOrderedSemiring α] in
lemma handleRadiusChange_alarm (s : AppState P α) (r : α) :
    (handleRadiusChange s r).isAlarmActive = s.isAlarmActive := by
  rcases ht : s.targetLocation with _ | t
  · rw [handleRadiusChange_none s r ht]
  · rw [handleRadiusChange_some s r t ht]

/-! ## Claim theorems -/

/-- C1: at-most-once triggering.  From a freshly armed state (target set,
not triggered, alarm inactive), fixes strictly outside the radius emit no
event, the first fix within the radius emits exactly one arrival event,
and every later fix within the radius emits none, so the whole run emits
exactly one event. -/
theorem arrival_at_most_once_per_arming
    (D : P → P → α) (s : AppState P α) (t : TargetLocation P α)
    (qs : List P) (q : P) (rs : List P)
    (ht : s.targetLocation = some t)
    (ha : s.isAlarmActive = false) (hg : s.hasTriggeredForCurrentTarget = false)
    (hqs : ∀ x ∈ qs, ¬ D x t.loc ≤ t.radius)
    (hq : D q t.loc ≤ t.radius)
    (hrs : ∀ x ∈ rs, D x t.loc ≤ t.radius) :
    (runFixes D s qs).2 = 0 ∧
    (onPositionUpdate D (runFixes D s qs).1 q).2 = 1 ∧
    (runFixes D s (qs ++ q :: rs)).2 = 1 := by
  obtain ⟨e0, ht0, ha0, hg0⟩ := runFixes_far D t qs s ht ha hg hqs
  obtain ⟨e1, ht1, ha1, hg1⟩ :=
    onPositionUpdate_trigger D (runFixes D s qs).1 t q ht0 ha0 hg0 hq
  have e2 := runFixes_inside_alarm D t rs
    (onPositionUpdate D (runFixes D s qs).1 q).1 ht1 ha1 hrs
  refine ⟨e0, e1, ?_⟩
  rw [runFixes_append D qs (q :: rs) s]
  dsimp only
  rw [runFixes_cons]
  dsimp only
  rw [e0, e1, e2]

/-- Witness for C1: target of radius 100 at the origin, fixes at
distances 200 (outside), 50 (first inside: the one event), then 80 and
30 (inside, no further event). -/
theorem arrival_at_most_once_per_arming_witness :
    (runFixes distOnLine freshState [200]).2 = 0 ∧
    (onPositionUpdate distOnLine (runFixes distOnLine freshState [200]).1 50).2 = 1 ∧
    (runFixes distOnLine freshState ([200] ++ 50 :: [80, 30])).2 = 1 :=
  arrival_at_most_once_per_arming distOnLine freshState ⟨0, 100, 0⟩ [200] 50 [80, 30]
    rfl rfl rfl (by decide) (by decide) (by decide)

/-- C2 counterexample: for a fresh target of radius 100, the fix sequence
at distances 50 (trigger), 120 (dead zone), 200 (re-arm), 90 (re-entry)
with no other commands in between produces exactly ONE arrival event, not
two: at the 90 m fix the alarm is still active (never dismissed), and the
trigger condition requires the alarm to be inactive. -/
theorem retrigger_scenario_counterexample :
    freshState.targetLocation = some ⟨0, 100, 0⟩ ∧
    freshState.isAlarmActive = false ∧
    freshState.hasTriggeredForCurrentTarget = false ∧
    (runFixes distOnLine freshState [50, 120, 200, 90]).2 = 1 ∧
    (runFixes distOnLine freshState [50, 120, 200, 90]).2 ≠ 2 := by decide

/-- C2 amended: the same scenario produces exactly two arrival events
when the alarm is dismissed between the trigger and the re-entry;
with no commands in between it produces exactly one (see the
counterexample). -/
theorem retrigger_scenario_amended :
    (run distOnLine freshState
      [.positionUpdate 50, .dismissAlarm, .positionUpdate 120,
       .positionUpdate 200, .positionUpdate 90]).2 = 2 := by decide

/-- C3: hysteresis dead zone.  While `Triggered`, a fix at distance
strictly beyond `radius + 50` re-arms (sets the triggered flag back to
false), while a fix in the dead zone `radius < d ≤ radius + 50` leaves
the state `Triggered`. -/
theorem hysteresis_deadzone (D : P → P → α) (s : AppState P α)
    (t : TargetLocation P α) (p : P)
    (ht : s.targetLocation = some t)
    (hg : s.hasTriggeredForCurrentTarget = true) :
    (D p t.loc > t.radius + 50 →
      (onPositionUpdate D s p).1.hasTriggeredForCurrentTarget = false) ∧
    (t.radius < D p t.loc → D p t.loc ≤ t.radius + 50 →
      (onPositionUpdate D s p).1.hasTriggeredForCurrentTarget = true) := by
  constructor
  · intro hd
    exact (onPositionUpdate_rearm D s t p ht hd).2.2.2
  · intro hd1 hd2
    have h1 : ¬ D p t.loc ≤ t.radius := not_le.mpr hd1
    have h2 : ¬ D p t.loc > t.radius + 50 := not_lt.mpr hd2
    have h := (onPositionUpdate_deadzone D s t p ht h1 h2).2.2.2
    rw [h, hg]

/-- Witness for C3: triggered on a 100 m target, a fix at 200 m re-arms,
a fix at 120 m (dead zone) does not. -/
theorem hysteresis_deadzone_witness :
    (onPositionUpdate distOnLine dwellState 200).1.hasTriggeredForCurrentTarget = false ∧
    (onPositionUpdate distOnLine dwellState 120).1.hasTriggeredForCurrentTarget = true :=
  ⟨(hysteresis_deadzone distOnLine dwellState ⟨0, 100, 0⟩ 200 rfl rfl).1 (by decide),
   (hysteresis_deadzone distOnLine dwellState ⟨0, 100, 0⟩ 120 rfl rfl).2
     (by decide) (by decide)⟩

/-- C4: setting a new target always re-arms.  The handler itself
unconditionally clears the triggered flag and the alarm for every prior
state; and over the composed transition (handler plus re-run of the
geofencing effect), the settled state can only be `Triggered` when a
fresh arrival event of the new arming cycle fired in that very
transition. -/
theorem setTarget_always_rearms :
    (∀ (s : AppState P α) (l : P) (now : ℕ),
      (handleSetTarget s l now).hasTriggeredForCurrentTarget = false ∧
      (handleSetTarget s l now).isAlarmActive = false) ∧
    (∀ (D : P → P → α) (s : AppState P α) (l : P) (now : ℕ),
      (setTargetStep D s l now).1.hasTriggeredForCurrentTarget = false ∨
      (setTargetStep D s l now).2 = 1) := by
  constructor
  · exact fun s l now => ⟨rfl, rfl⟩
  · intro D s l now
    exact geofenceCheck_keeps_untriggered D (handleSetTarget s l now) rfl

/-- C5 counterexample: triggered on a 300 m target at distance 200,
narrowing the radius to 100 re-runs the geofencing effect, whose
hysteresis branch (200 > 100 + 50) resets the arm state to `Armed` —
the claim said the arm state stays `Triggered`. -/
theorem radiusChange_rearms_counterexample :
    triggeredFarState.hasTriggeredForCurrentTarget = true ∧
    (radiusChangeStep distOnLine triggeredFarState 100).2 = 0 ∧
    (radiusChangeStep distOnLine triggeredFarState 100).1.hasTriggeredForCurrentTarget
      = false := by decide

/-- C5 amended: changing the radius while `Triggered` never emits an
arrival event; the arm state stays `Triggered` unless the known current
distance exceeds the NEW radius + 50, in which case the re-run geofencing
effect applies its hysteresis re-arm with the new radius. -/
theorem radiusChange_while_triggered (D : P → P → α) (s : AppState P α) (r : α)
    (hg : s.hasTriggeredForCurrentTarget = true) :
    (radiusChangeStep D s r).2 = 0 ∧
    ((∀ u t, s.userLocation = some u → s.targetLocation = some t →
        D u t.loc ≤ r + 50) →
      (radiusChangeStep D s r).1.hasTriggeredForCurrentTarget = true) := by
  rcases ht : s.targetLocation with _ | t
  · unfold radiusChangeStep
    rw [handleRadiusChange_none s r ht]
    rw [geofenceCheck_none D ({ s with targetRadius := r })
      (Or.inr (show ({ s with targetRadius := r } : AppState P α).targetLocation = none
        from ht))]
    exact ⟨rfl, fun _ => hg⟩
  rcases hu : s.userLocation with _ | u
  · unfold radiusChangeStep
    rw [handleRadiusChange_some s r t ht]
    rw [geofenceCheck_none D
      ({ s with targetRadius := r, targetLocation := some { t with radius := r } })
      (Or.inl hu)]
    exact ⟨rfl, fun _ => hg⟩
  unfold radiusChangeStep
  rw [handleRadiusChange_some s r t ht]
  by_cases h1 : D u t.loc ≤ r
  · rw [geofenceCheck_inside_blocked D
      ({ s with targetRadius := r, targetLocation := some { t with radius := r } })
      u ({ t with radius := r }) hu rfl (Or.inr hg) h1]
    exact ⟨rfl, fun _ => hg⟩
  by_cases h2 : D u t.loc > r + 50
  · rw [geofenceCheck_rearm D
      ({ s with targetRadius := r, targetLocation := some { t with radius := r } })
      u ({ t with radius := r }) hu rfl h2]
    exact ⟨rfl, fun hq => absurd (hq u t rfl rfl) (not_le.mpr h2)⟩
  · rw [geofenceCheck_deadzone D
      ({ s with targetRadius := r, targetLocation := some { t with radius := r } })
      u ({ t with radius := r }) hu rfl h1 h2]
    exact ⟨rfl, fun _ => hg⟩

/-- Witness for C5 amended: triggered at distance 90 on a 100 m target,
changing the radius to 100 emits nothing and stays `Triggered`. -/
theorem radiusChange_while_triggered_witness :
    (radiusChangeStep distOnLine dwellState 100).2 = 0 ∧
    (radiusChangeStep distOnLine dwellState 100).1.hasTriggeredForCurrentTarget = true :=
  ⟨(radiusChange_while_triggered distOnLine dwellState 100 rfl).1,
   (radiusChange_while_triggered distOnLine dwellState 100 rfl).2
     (fun u t hu ht => by
       have hu' : u = 90 := by simpa [dwellState] using hu.symm
       have ht' : t = ⟨0, 100, 0⟩ := by simpa [dwellState] using ht.symm
       subst hu'
       subst ht'
       decide)⟩

/-- C6 counterexample: after re-arming inside the radius with the alarm
never dismissed (`reenteredState`), the dismiss operation does more than
clearing alarm-active: the geofencing effect re-runs (its
`isAlarmActive` dependency changed), immediately re-triggers, flips the
arm state from `Armed` to `Triggered`, emits an arrival event, and
leaves the alarm ACTIVE. -/
theorem dismiss_refires_counterexample :
    reenteredState.isAlarmActive = true ∧
    reenteredState.hasTriggeredForCurrentTarget = false ∧
    (dismissStep distOnLine reenteredState).1.isAlarmActive = true ∧
    (dismissStep distOnLine reenteredState).1.hasTriggeredForCurrentTarget = true ∧
    (dismissStep distOnLine reenteredState).2 = 1 := by decide

/-- C6 amended: dismiss never changes the target, the position or the
slider radius; when the re-run geofencing effect neither fires (distance
within radius while `Armed`) nor re-arms (distance beyond radius + 50
while `Triggered`), dismiss clears alarm-active and changes nothing
else; but when a known fix lies within the radius and the state is
`Armed`, dismissing immediately emits a new arrival event, re-triggers
and re-activates the alarm. -/
theorem dismiss_frame_amended (D : P → P → α) (s : AppState P α) :
    (dismissStep D s).1.userLocation = s.userLocation ∧
    (dismissStep D s).1.targetLocation = s.targetLocation ∧
    (dismissStep D s).1.targetRadius = s.targetRadius ∧
    ((∀ u t, s.userLocation = some u → s.targetLocation = some t →
        (s.hasTriggeredForCurrentTarget = false → ¬ D u t.loc ≤ t.radius) ∧
        (s.hasTriggeredForCurrentTarget = true → ¬ D u t.loc > t.radius + 50)) →
      ((dismissStep D s).1.isAlarmActive = false ∧
        (dismissStep D s).1.hasTriggeredForCurrentTarget =
          s.hasTriggeredForCurrentTarget ∧
        (dismissStep D s).2 = 0)) ∧
    (∀ u t, s.userLocation = some u → s.targetLocation = some t →
      s.hasTriggeredForCurrentTarget = false → D u t.loc ≤ t.radius →
      ((dismissStep D s).1.isAlarmActive = true ∧
        (dismissStep D s).1.hasTriggeredForCurrentTarget = true ∧
        (dismissStep D s).2 = 1)) := by
  obtain ⟨f1, f2, f3⟩ := geofenceCheck_frame D (handleDismissAlarm s)
  refine ⟨f1, f2, f3, ?_, ?_⟩
  · intro hq
    rcases hu : s.userLocation with _ | u
    · unfold dismissStep
      rw [geofenceCheck_none D (handleDismissAlarm s) (Or.inl hu)]
      exact ⟨rfl, rfl, rfl⟩
    rcases ht : s.targetLocation with _ | t
    · unfold dismissStep
      rw [geofenceCheck_none D (handleDismissAlarm s) (Or.inr ht)]
      exact ⟨rfl, rfl, rfl⟩
    have hcond := hq u t hu ht
    cases hgv : s.hasTriggeredForCurrentTarget with
    | false =>
      have hnin : ¬ D u t.loc ≤ t.radius := hcond.1 hgv
      by_cases h2 : D u t.loc > t.radius + 50
      · unfold dismissStep
        rw [geofenceCheck_rearm D (handleDismissAlarm s) u t hu ht h2]
        exact ⟨rfl, rfl, rfl⟩
      · unfold dismissStep
        rw [geofenceCheck_deadzone D (handleDismissAlarm s) u t hu ht hnin h2]
        exact ⟨rfl, hgv, rfl⟩
    | true =>
      have hnre : ¬ D u t.loc > t.radius + 50 := hcond.2 hgv
      by_cases h1 : D u t.loc ≤ t.radius
      · unfold dismissStep
        rw [geofenceCheck_inside_blocked D (handleDismissAlarm s) u t hu ht
          (Or.inr hgv) h1]
        exact ⟨rfl, hgv, rfl⟩
      · unfold dismissStep
        rw [geofenceCheck_deadzone D (handleDismissAlarm s) u t hu ht h1 hnre]
        exact ⟨rfl, hgv, rfl⟩
  · intro u t hu ht hgf hd
    unfold dismissStep
    rw [geofenceCheck_trigger D (handleDismissAlarm s) u t hu ht rfl hgf hd]
    exact ⟨rfl, rfl, rfl⟩

/-- Witness for C6 amended: dismissing while triggered and dwelling
inside the radius clears the alarm and changes nothing else. -/
theorem dismiss_frame_amended_witness :
    (dismissStep distOnLine dwellState).1.isAlarmActive = false ∧
    (dismissStep distOnLine dwellState).1.hasTriggeredForCurrentTarget =
      dwellState.hasTriggeredForCurrentTarget ∧
    (dismissStep distOnLine dwellState).2 = 0 :=
  (dismiss_frame_amended distOnLine dwellState).2.2.2.1
    (fun u t hu ht => by
      have hu' : u = 90 := by simpa [dwellState] using hu.symm
      have ht' : t = ⟨0, 100, 0⟩ := by simpa [dwellState] using ht.symm
      subst hu'
      subst ht'
      decide)

/-- C7 counterexample: the haversine formula evaluates to zero at the
north pole for two different coordinate values (latitude 90 with
longitudes 0 and 50), because cos(π/2) = 0 kills the longitude term.
So distance zero does not imply equal coordinates. -/
theorem calculateDistance_zero_at_pole :
    calculateDistance ⟨90, 0⟩ ⟨90, 50⟩ = 0 ∧ (⟨90, 0⟩ : GeoLocation) ≠ ⟨90, 50⟩ := by
  constructor
  · rw [calculateDistance_eq]
    have hA : havA ⟨90, 0⟩ ⟨90, 50⟩ = 0 := by
      unfold havA
      dsimp only
      rw [show ((90 : ℝ) - 90) * Real.pi / 180 / 2 = 0 from by ring,
        show (90 : ℝ) * Real.pi / 180 = Real.pi / 2 from by ring]
      rw [Real.sin_zero, Real.cos_pi_div_two]
      ring
    rw [hA, Real.sqrt_zero, sub_zero, Real.sqrt_one, atan2_zero_one]
    ring
  · intro h
    have h50 : (0 : ℝ) = 50 := congrArg GeoLocation.lng h
    norm_num at h50

/-- C7 amended: `calculateDistance` satisfies `distance a a = 0` and
symmetry, and it is exactly the spec's haversine great-circle formula
with Earth radius 6,371,000 m; distance zero implies equal coordinates
only away from the poles and for longitude differences below 360
degrees (at the poles the counterexample above refutes the unrestricted
claim). -/
theorem calculateDistance_contract :
    (∀ a : GeoLocation, calculateDistance a a = 0) ∧
    (∀ a b : GeoLocation, calculateDistance a b = calculateDistance b a) ∧
    (∀ a b : GeoLocation, calculateDistance a b = haversineSpecDistance a b) ∧
    (∀ a b : GeoLocation, |a.lat| < 90 → |b.lat| < 90 → |a.lng - b.lng| < 360 →
      calculateDistance a b = 0 → a = b) := by
  refine ⟨?_, ?_, calculateDistance_spec_eq, calculateDistance_zero_imp_eq⟩
  · intro a
    rw [calculateDistance_eq, havA_self, Real.sqrt_zero, sub_zero, Real.sqrt_one,
      atan2_zero_one]
    ring
  · intro a b
    rw [calculateDistance_eq, calculateDistance_eq, havA_comm]

/-- Witness for C7 amended: the zero-implies-equal part applied at the
origin, with its bound hypotheses discharged and the distance-zero
hypothesis supplied by the reflexivity part. -/
theorem calculateDistance_contract_witness :
    (⟨0, 0⟩ : GeoLocation) = ⟨0, 0⟩ :=
  calculateDistance_contract.2.2.2 ⟨0, 0⟩ ⟨0, 0⟩
    (by norm_num) (by norm_num) (by norm_num)
    (calculateDistance_contract.1 ⟨0, 0⟩)

/-- C8: accuracy-tier fallback of the geolocation error callback.
Timeout (code 3) or PositionUnavailable (code 2) in the high-accuracy
tier restarts the watch in the low-accuracy tier surfacing nothing;
PermissionDenied (code 1) at either tier surfaces a human-readable
message; and in the low-accuracy tier every failure surfaces a
message. -/
theorem accuracy_tier_fallback (message : String) :
    attemptWatchOnError true 3 message = GeoErrorAction.retryLowAccuracy ∧
    attemptWatchOnError true 2 message = GeoErrorAction.retryLowAccuracy ∧
    (∀ hi : Bool, attemptWatchOnError hi 1 message =
      GeoErrorAction.surfaceError
        "Location access denied. Please enable location permissions.") ∧
    (∀ code : ℕ, ∃ m : String,
      attemptWatchOnError false code message = GeoErrorAction.surfaceError m) := by
  refine ⟨rfl, rfl, ?_, ?_⟩
  · intro hi
    cases hi <;> rfl
  · intro code
    exact ⟨_, rfl⟩

/-- C9 counterexample: armed on a 50 m target at known distance 90 but
with the alarm still active (`armedAlarmOnState`), widening the radius
to 100 makes the known distance fall inside the new radius — yet NO
arrival event fires, because the trigger condition also requires the
alarm to be inactive. -/
theorem radius_widen_no_event_counterexample :
    armedAlarmOnState.hasTriggeredForCurrentTarget = false ∧
    (¬ distOnLine 90 0 ≤ (50 : ℤ)) ∧
    distOnLine 90 0 ≤ (100 : ℤ) ∧
    (radiusChangeStep distOnLine armedAlarmOnState 100).2 = 0 := by decide

/-- C9 amended: if the state is `Armed` AND the alarm is inactive, with
a known fix at distance beyond the old radius but within the new one,
widening the radius immediately fires exactly one arrival event without
any new position fix. -/
theorem radius_widen_triggers_amended (D : P → P → α) (s : AppState P α)
    (u : P) (t : TargetLocation P α) (r : α)
    (hu : s.userLocation = some u) (ht : s.targetLocation = some t)
    (hg : s.hasTriggeredForCurrentTarget = false) (ha : s.isAlarmActive = false)
    (_hout : ¬ D u t.loc ≤ t.radius) (hin : D u t.loc ≤ r) :
    (radiusChangeStep D s r).2 = 1 ∧
    (radiusChangeStep D s r).1.isAlarmActive = true ∧
    (radiusChangeStep D s r).1.hasTriggeredForCurrentTarget = true := by
  unfold radiusChangeStep
  rw [handleRadiusChange_some s r t ht]
  rw [geofenceCheck_trigger D
    ({ s with targetRadius := r, targetLocation := some { t with radius := r } })
    u ({ t with radius := r }) hu rfl ha hg hin]
  exact ⟨rfl, rfl, rfl⟩

/-- Witness for C9 amended: armed with the alarm inactive at distance 90
on a 50 m target, widening to 100 fires immediately. -/
theorem radius_widen_triggers_amended_witness :
    (radiusChangeStep distOnLine armedReadyState 100).2 = 1 ∧
    (radiusChangeStep distOnLine armedReadyState 100).1.isAlarmActive = true ∧
    (radiusChangeStep distOnLine armedReadyState 100).1.hasTriggeredForCurrentTarget
      = true :=
  radius_widen_triggers_amended distOnLine armedReadyState 90 ⟨0, 50, 0⟩ 100
    rfl rfl rfl rfl (by decide) (by decide)

/-- C10: no arrival event is emitted while the alarm is active — the
trigger condition requires alarm-inactive; position fixes and radius
changes emit nothing while the alarm is active; the hysteresis re-arm
leaves alarm-active unchanged; and hence leaving the dead zone and
re-entering the radius without a dismiss in between emits no event. -/
theorem no_event_while_alarm_active :
    (∀ (D : P → P → α) (s : AppState P α) (p : P),
      s.isAlarmActive = true → (onPositionUpdate D s p).2 = 0) ∧
    (∀ (D : P → P → α) (s : AppState P α) (r : α),
      s.isAlarmActive = true → (radiusChangeStep D s r).2 = 0) ∧
    (∀ (D : P → P → α) (s : AppState P α) (t : TargetLocation P α) (p : P),
      s.targetLocation = some t → D p t.loc > t.radius + 50 →
      (onPositionUpdate D s p).1.isAlarmActive = s.isAlarmActive) ∧
    (∀ (D : P → P → α) (s : AppState P α) (t : TargetLocation P α) (p q : P),
      s.targetLocation = some t → s.isAlarmActive = true →
      D p t.loc > t.radius + 50 → D q t.loc ≤ t.radius →
      (runFixes D s [p, q]).2 = 0) := by
  refine ⟨?_, ?_, ?_, ?_⟩
  · intro D s p ha
    exact (geofenceCheck_alarm_on D ({ s with userLocation := some p })
      (show ({ s with userLocation := some p } : AppState P α).isAlarmActive = true
        from ha)).1
  · intro D s r ha
    unfold radiusChangeStep
    exact (geofenceCheck_alarm_on D (handleRadiusChange s r)
      (by rw [handleRadiusChange_alarm]; exact ha)).1
  · intro D s t p ht hd
    exact (onPositionUpdate_rearm D s t p ht hd).2.2.1
  · intro D s t p q ht ha hdp hdq
    obtain ⟨e1, ht1, ha1, _⟩ := onPositionUpdate_rearm D s t p ht hdp
    have ha1' : (onPositionUpdate D s p).1.isAlarmActive = true := by
      rw [ha1, ha]
    obtain ⟨e2, _, _, _⟩ :=
      onPositionUpdate_inside_blocked D (onPositionUpdate D s p).1 t q ht1
        (Or.inl ha1') hdq
    rw [runFixes_cons]
    dsimp only
    rw [runFixes_cons]
    dsimp only
    rw [e1, e2]
    rfl

/-- Witness for C10: triggered at 90 m inside a 100 m target with the
alarm ringing, a fix at 70 m and a radius change to 80 emit nothing; a
fix at 200 m re-arms but leaves the alarm active; and the pair of fixes
200 m then 90 m (re-arm then re-entry, no dismiss) emits nothing. -/
theorem no_event_while_alarm_active_witness :
    (onPositionUpdate distOnLine dwellState 70).2 = 0 ∧
    (radiusChangeStep distOnLine dwellState 80).2 = 0 ∧
    (onPositionUpdate distOnLine dwellState 200).1.isAlarmActive =
      dwellState.isAlarmActive ∧
    (runFixes distOnLine dwellState [200, 90]).2 = 0 :=
  ⟨no_event_while_alarm_active.1 distOnLine dwellState 70 rfl,
   no_event_while_alarm_active.2.1 distOnLine dwellState 80 rfl,
   no_event_while_alarm_active.2.2.1 distOnLine dwellState ⟨0, 100, 0⟩ 200
     rfl (by decide),
   no_event_while_alarm_active.2.2.2 distOnLine dwellState ⟨0, 100, 0⟩ 200 90
     rfl rfl (by decide) (by decide)⟩

end SleepyArrival
